import Mathlib

set_option maxHeartbeats 1000000

/-!
Verification of the market-cycle signal scoring engine
(`src/market_signal_monitor_v2.py`).

Shallow embedding conventions:
* A pandas row is a `Row`: the raw OHLCV fields (`o`, `h`, `l`, `c`, `v`) are
  rationals (Python floats modelled exactly over ℚ), and every indicator
  column is an `Option ℚ` where `none` models a pandas `NaN`
  (`pd.notna x` becomes `Option.isSome`, and any comparison against a `NaN`
  operand is `false`, exactly as in pandas/NumPy).
* The DataFrame is a `List Row` ordered oldest to newest; `df.iloc[-1]`,
  `df.iloc[-2]`, `df.iloc[-3]` become the head elements of `df.reverse`, and
  `series.tail(n)` becomes `tailN n`.
* The `row.name` timestamp (only ever rendered via `strftime`) is carried as
  an already-rendered `String` field.
* Python numeric format specifiers (`:,.2f` etc.) in the *valid* f-strings
  are abstracted by `fmtQ` (a deterministic rendering of the rational); the
  claims touching these strings depend only on presence and determinism of
  the rendered text, not on the digit grouping.
* The two f-strings of the chain-data else branches use
  a conditional expression inside the format specifier, which Python parses
  as the literal format spec and therefore raises `ValueError` (for a float)
  or `TypeError` (for `None`) at runtime.  Both runtime errors are modelled
  as `PyError.formatError`; `df.iloc[-2]` on a series shorter than two rows
  raises `IndexError`, modelled as `PyError.indexError`.  Fallible code
  returns `Except PyError`.
-/

/-- Runtime errors the scoring code can actually raise: an `IndexError` from
`df.iloc[-2]` on a too-short series, and the `ValueError`/`TypeError` raised
by the malformed chain-data f-string format specifiers. -/
inductive PyError where
  | indexError : PyError
  | formatError : PyError
deriving DecidableEq, Repr

/-- One row of the annotated DataFrame: raw OHLCV data plus the indicator
columns added by `calculate_indicators`.  Indicator entries are `none` where
pandas holds `NaN` (insufficient lookback) or where the column was never
created.  Only the columns read by the two scoring functions are carried. -/
structure Row where
  name : String
  o : ℚ
  h : ℚ
  l : ℚ
  c : ℚ
  v : ℚ
  EMA_20 : Option ℚ
  EMA_50 : Option ℚ
  EMA_200 : Option ℚ
  RSI_14 : Option ℚ
  MACD : Option ℚ
  MACD_signal : Option ℚ
  BB_lower : Option ℚ
  BB_upper : Option ℚ
  Volume_MA : Option ℚ
  OBV : Option ℚ
deriving DecidableEq, Repr

/-- Chain metrics dictionary built in `check_market_signals`: both keys are
always present, each value may be `None`.  `chain_data.get` therefore returns
exactly these `Option` fields. -/
structure ChainData where
  mvrv_z_score : Option ℚ
  sopr : Option ℚ
deriving DecidableEq, Repr

-- Decidable equality for results, used by concrete evaluation theorems.
deriving instance DecidableEq for Except

/-- One entry of the `reasons` dict: rule key and verdict string, in
insertion order (all keys inserted by a scoring run are distinct, so the
Python dict is faithfully an association list). -/
abbrev Entry := String × String

/-- Rendering of a rational for the verdict/message f-strings.  Python
applies format specifiers such as `:,.0f`; the exact digit rendering is
abstracted (deterministically) since no claim depends on it. -/
def fmtQ (q : ℚ) : String := toString q

/-- Embedding of `pd.notna(b) and a < b` (comparison short-circuited behind
the `notna` guard, exactly as in the source). -/
def cmpLtOpt (a : ℚ) (b : Option ℚ) : Bool :=
  match b with
  | some y => decide (a < y)
  | none => false

/-- Embedding of `pd.notna(b) and a > b`. -/
def cmpGtOpt (a : ℚ) (b : Option ℚ) : Bool :=
  match b with
  | some y => decide (y < a)
  | none => false

/-- NaN-propagating `<` between two possibly-NaN operands: any comparison
touching a NaN is `False` in pandas. -/
def nanLt (a b : Option ℚ) : Bool :=
  match a, b with
  | some x, some y => decide (x < y)
  | _, _ => false

/-- NaN-propagating `>` between two possibly-NaN operands. -/
def nanGt (a b : Option ℚ) : Bool :=
  match a, b with
  | some x, some y => decide (y < x)
  | _, _ => false

/-- Embedding of `series.max() > k` where the series may be all-NaN. -/
def nanGtConst (a : Option ℚ) (k : ℚ) : Bool :=
  match a with
  | some x => decide (k < x)
  | none => false

/-- Embedding of `series.min() < k` where the series may be all-NaN. -/
def nanLtConst (a : Option ℚ) (k : ℚ) : Bool :=
  match a with
  | some x => decide (x < k)
  | none => false

/-- Embedding of `series.tail(n)`: the last `n` elements (all of them when
the series is shorter). -/
def tailN (n : ℕ) (xs : List α) : List α := xs.drop (xs.length - n)

/-- Maximum of a raw (never-NaN) price column, as in `df[col].max()`.  The
empty case is unreachable at every call site (the scoring body only runs on
series of length at least two) and mirrors that pandas would give NaN. -/
def listMax : List ℚ → ℚ
  | [] => 0
  | x :: xs => xs.foldl max x

/-- Minimum of a raw (never-NaN) price column, as in `df[col].min()`. -/
def listMin : List ℚ → ℚ
  | [] => 0
  | x :: xs => xs.foldl min x

/-- Skip-NaN maximum of an indicator column, as pandas `Series.max()`
(NaN entries ignored; all-NaN gives NaN). -/
def nanMax (xs : List (Option ℚ)) : Option ℚ :=
  xs.foldl
    (fun acc x =>
      match acc, x with
      | none, y => y
      | acc, none => acc
      | some a, some b => some (max a b))
    none

/-- Skip-NaN minimum of an indicator column, as pandas `Series.min()`. -/
def nanMin (xs : List (Option ℚ)) : Option ℚ :=
  xs.foldl
    (fun acc x =>
      match acc, x with
      | none, y => y
      | acc, none => acc
      | some a, some b => some (min a b))
    none

/-!
Bear rule-set (`calculate_bear_signal_score`, lines 254-361).  Each rule
returns the points it adds to `score` together with the `reasons` entries it
inserts (empty when the Python `if` guard skips the rule body entirely).
-/

/-- Bear rule: price below the 20-week EMA (20/10/0 points). -/
def bearEma20Rule (latest prev1 : Row) : ℕ × List Entry :=
  if cmpLtOpt latest.c latest.EMA_20 then
    if cmpLtOpt prev1.c prev1.EMA_20 then
      (20, [("EMA_20", "✅ [20分] 价格连续2周低于20周EMA")])
    else
      (10, [("EMA_20", "🟡 [10分] 价格低于20周EMA（仅1周）")])
  else
    (0, [("EMA_20", "❌ [0分] 价格高于20周EMA")])

/-- Bear rule: price below the 50-week EMA (10/0 points). -/
def bearEma50Rule (latest : Row) : ℕ × List Entry :=
  if cmpLtOpt latest.c latest.EMA_50 then
    (10, [("EMA_50", "✅ [10分] 价格低于50周EMA")])
  else
    (0, [("EMA_50", "❌ [0分] 价格高于50周EMA")])

/-- Bear rule: death cross (10/0 points).  When either EMA is NaN the whole
rule body is skipped and no `reasons` entry is written. -/
def bearDeathCrossRule (latest : Row) : ℕ × List Entry :=
  match latest.EMA_50, latest.EMA_200 with
  | some e50, some e200 =>
    if e50 < e200 then
      (10, [("Death_Cross", "✅ [10分] 死亡交叉（50EMA < 200EMA）")])
    else
      (0, [("Death_Cross", "❌ [0分] 无死亡交叉")])
  | _, _ => (0, [])

/-- Bear rule: lower low (10/0 points). -/
def bearLowerLowRule (latest prev1 : Row) : ℕ × List Entry :=
  if latest.l < prev1.l then
    (10, [("Lower_Low", "✅ [10分] 创新低 ($" ++ fmtQ latest.l ++ " < $" ++ fmtQ prev1.l ++ ")")])
  else
    (0, [("Lower_Low", "❌ [0分] 未创新低")])

/-- Bear rule: close 2% below the 20-bar low (8/0 points). -/
def bearSupportRule (df : List Row) (latest : Row) : ℕ × List Entry :=
  let recent_support := listMin (tailN 20 (df.map Row.l))
  if latest.c < recent_support * (98 / 100) then
    (8, [("Support", "✅ [8分] 跌破关键支撑 ($" ++ fmtQ recent_support ++ ")")])
  else
    (0, [("Support", "❌ [0分] 未跌破关键支撑")])

/-- Bear rule: close below the lower Bollinger band (7/0 points). -/
def bearBBRule (latest : Row) : ℕ × List Entry :=
  if cmpLtOpt latest.c latest.BB_lower then
    (7, [("BB_Breakdown", "✅ [7分] 跌破布林带下轨")])
  else
    (0, [("BB_Breakdown", "❌ [0分] 未跌破布林带下轨")])

/-- Bear rule: RSI falling from overbought (8/4/0 points), guarded on both
RSI values being non-NaN; skipped entirely otherwise. -/
def bearRsiRule (df : List Row) (latest prev1 : Row) : ℕ × List Entry :=
  match latest.RSI_14, prev1.RSI_14 with
  | some r0, some r1 =>
    let rsi_was_overbought := nanGtConst (nanMax (tailN 10 (df.map Row.RSI_14))) 70
    if rsi_was_overbought ∧ r0 < r1 then
      (8, [("RSI", "✅ [8分] RSI从超买回落 (当前:" ++ fmtQ r0 ++ ")")])
    else if r0 < 30 then
      (4, [("RSI", "🟡 [4分] RSI超卖 (" ++ fmtQ r0 ++ ")")])
    else
      (0, [("RSI", "❌ [0分] RSI中性 (" ++ fmtQ r0 ++ ")")])
  | _, _ => (0, [])

/-- Bear rule: MACD death cross (7/3/0 points), guarded on all four MACD
values being non-NaN; skipped entirely otherwise. -/
def bearMacdRule (latest prev1 : Row) : ℕ × List Entry :=
  match latest.MACD, latest.MACD_signal, prev1.MACD, prev1.MACD_signal with
  | some m0, some s0, some m1, some s1 =>
    if m0 < s0 ∧ s1 ≤ m1 then
      (7, [("MACD", "✅ [7分] MACD死叉")])
    else if m0 < s0 then
      (3, [("MACD", "🟡 [3分] MACD负值")])
    else
      (0, [("MACD", "❌ [0分] MACD正向")])
  | _, _, _, _ => (0, [])

/-- Bear rule: bearish divergence (5/0 points), only evaluated when the
series has at least 10 rows; the RSI comparison silently yields `False` on a
NaN operand. -/
def bearDivergenceRule (df : List Row) (latest : Row) : ℕ × List Entry :=
  if 10 ≤ df.length then
    let recent_price_high := listMax (tailN 10 (df.map Row.h))
    let recent_rsi_high := nanMax (tailN 10 (df.map Row.RSI_14))
    if recent_price_high * (98 / 100) ≤ latest.h ∧
        nanLt latest.RSI_14 (recent_rsi_high.map (fun x => x * (95 / 100))) then
      (5, [("Divergence", "✅ [5分] 检测到熊背离")])
    else
      (0, [("Divergence", "❌ [0分] 无背离")])
  else
    (0, [])

/-- Bear rule: declining with volume (5/2/0 points). -/
def bearVolumeRule (latest prev1 : Row) : ℕ × List Entry :=
  if cmpGtOpt latest.v latest.Volume_MA then
    if latest.c < prev1.c then
      (5, [("Volume", "✅ [5分] 下跌放量")])
    else
      (2, [("Volume", "🟡 [2分] 成交量放大但价格未下跌")])
  else
    (0, [("Volume", "❌ [0分] 下跌缩量")])

/-- Bear rule: OBV declining (5/0 points), guarded on both OBV values being
non-NaN; skipped entirely otherwise. -/
def bearObvRule (latest prev1 : Row) : ℕ × List Entry :=
  match latest.OBV, prev1.OBV with
  | some o0, some o1 =>
    if o0 < o1 then
      (5, [("OBV", "✅ [5分] OBV下降")])
    else
      (0, [("OBV", "❌ [0分] OBV上升")])
  | _, _ => (0, [])

/-- Bear chain-data section (MVRV 3 points, aSOPR 2 points).  The two else
branches build f-strings whose format specifier is the literal text
`.2f if mvrv else ...`, which raises at runtime (ValueError for a float,
TypeError for None); hence any absent or non-qualifying chain field aborts
the whole evaluation with `formatError`. -/
def bearChainSection (chain_data : Option ChainData) : Except PyError (ℕ × List Entry) :=
  match chain_data with
  | none => Except.ok (0, [("Chain_Data", "ℹ️ [0分] 链上数据不可用")])
  | some cd =>
    let mvrvStep : Except PyError (ℕ × List Entry) :=
      match cd.mvrv_z_score with
      | some m =>
        if m ≠ 0 ∧ 5 < m then
          Except.ok (3, [("MVRV", "✅ [3分] MVRV过热 (" ++ fmtQ m ++ ")")])
        else
          Except.error PyError.formatError
      | none => Except.error PyError.formatError
    let soprStep : Except PyError (ℕ × List Entry) :=
      match cd.sopr with
      | some sp =>
        if sp ≠ 0 ∧ sp < 1 then
          Except.ok (2, [("SOPR", "✅ [2分] aSOPR<1.0 (" ++ fmtQ sp ++ ")")])
        else
          Except.error PyError.formatError
      | none => Except.error PyError.formatError
    match mvrvStep with
    | Except.error e => Except.error e
    | Except.ok p1 =>
      match soprStep with
      | Except.error e => Except.error e
      | Except.ok p2 => Except.ok (p1.1 + p2.1, p1.2 ++ p2.2)

/-- The eleven technical bear rules in source order. -/
def bearRules (df : List Row) (latest prev1 : Row) : List (ℕ × List Entry) :=
  [bearEma20Rule latest prev1,
   bearEma50Rule latest,
   bearDeathCrossRule latest,
   bearLowerLowRule latest prev1,
   bearSupportRule df latest,
   bearBBRule latest,
   bearRsiRule df latest prev1,
   bearMacdRule latest prev1,
   bearDivergenceRule df latest,
   bearVolumeRule latest prev1,
   bearObvRule latest prev1]

/-- Body of `calculate_bear_signal_score` once `latest`/`prev1` have been
extracted: the accumulated `score` is the sum of the per-rule awards plus the
chain-section award, and `reasons` is the concatenation of the per-rule
entries in insertion order. -/
def bearScoreCore (df : List Row) (latest prev1 : Row) (chain_data : Option ChainData) :
    Except PyError (ℕ × List Entry) :=
  match bearChainSection chain_data with
  | Except.error e => Except.error e
  | Except.ok cres =>
    Except.ok (((bearRules df latest prev1).map Prod.fst).sum + cres.1,
               ((bearRules df latest prev1).map Prod.snd).flatten ++ cres.2)

/-- Embedding of `calculate_bear_signal_score`: `latest = df.iloc[-1]` and
`prev1 = df.iloc[-2]` raise `IndexError` when the series has fewer than two
rows (`prev2` is computed but never used by the bear rules). -/
def calculate_bear_signal_score (df : List Row) (chain_data : Option ChainData) :
    Except PyError (ℕ × List Entry) :=
  match df.reverse with
  | latest :: prev1 :: _ => bearScoreCore df latest prev1 chain_data
  | _ => Except.error PyError.indexError

/-!
Bull rule-set (`calculate_bull_signal_score`, lines 404-539).
-/

/-- Bull rule: price above the 20-week EMA, counted over the last three bars
(20/12/6/0 points).  Guarded on all three EMA values being non-NaN; skipped
entirely otherwise.  Note the asymmetry with the bear rule: a three-bar
non-consecutive count with awards 20/12/6/0 instead of the bear two-bar
consecutive 20/10/0 scheme. -/
def bullEma20Rule (latest prev1 prev2 : Row) : ℕ × List Entry :=
  match latest.EMA_20, prev1.EMA_20, prev2.EMA_20 with
  | some e0, some e1, some e2 =>
    let weeks_above : ℕ :=
      (if e0 < latest.c then 1 else 0) +
      (if e1 < prev1.c then 1 else 0) +
      (if e2 < prev2.c then 1 else 0)
    if 3 ≤ weeks_above then
      (20, [("EMA_20", "✅ [20分] 价格连续3周高于20周EMA")])
    else if weeks_above = 2 then
      (12, [("EMA_20", "🟡 [12分] 价格连续2周高于20周EMA")])
    else if weeks_above = 1 then
      (6, [("EMA_20", "🟡 [6分] 价格高于20周EMA（仅1周）")])
    else
      (0, [("EMA_20", "❌ [0分] 价格低于20周EMA")])
  | _, _, _ => (0, [])

/-- Bull rule: price above the 50-week EMA (10/0 points). -/
def bullEma50Rule (latest : Row) : ℕ × List Entry :=
  if cmpGtOpt latest.c latest.EMA_50 then
    (10, [("EMA_50", "✅ [10分] 价格高于50周EMA")])
  else
    (0, [("EMA_50", "❌ [0分] 价格低于50周EMA")])

/-- Bull rule: golden cross (10/0 points), guarded like the bear death
cross. -/
def bullGoldenCrossRule (latest : Row) : ℕ × List Entry :=
  match latest.EMA_50, latest.EMA_200 with
  | some e50, some e200 =>
    if e200 < e50 then
      (10, [("Golden_Cross", "✅ [10分] 黄金交叉（50EMA > 200EMA）")])
    else
      (0, [("Golden_Cross", "❌ [0分] 无黄金交叉")])
  | _, _ => (0, [])

/-- Bull rule: higher high (10/0 points). -/
def bullHigherHighRule (latest prev1 : Row) : ℕ × List Entry :=
  if prev1.h < latest.h then
    (10, [("Higher_High", "✅ [10分] 创新高 ($" ++ fmtQ latest.h ++ " > $" ++ fmtQ prev1.h ++ ")")])
  else
    (0, [("Higher_High", "❌ [0分] 未创新高")])

/-- Bull rule: close 2% above the 20-bar high (8/0 points). -/
def bullResistanceRule (df : List Row) (latest : Row) : ℕ × List Entry :=
  let recent_resistance := listMax (tailN 20 (df.map Row.h))
  if recent_resistance * (102 / 100) < latest.c then
    (8, [("Resistance", "✅ [8分] 突破关键阻力 ($" ++ fmtQ recent_resistance ++ ")")])
  else
    (0, [("Resistance", "❌ [0分] 未突破关键阻力")])

/-- Bull rule: close above the upper Bollinger band (7/0 points). -/
def bullBBRule (latest : Row) : ℕ × List Entry :=
  if cmpGtOpt latest.c latest.BB_upper then
    (7, [("BB_Breakout", "✅ [7分] 突破布林带上轨")])
  else
    (0, [("BB_Breakout", "❌ [0分] 未突破布林带上轨")])

/-- Bull rule: RSI rebounding from oversold (8/4/0 points), guarded on both
RSI values being non-NaN; skipped entirely otherwise. -/
def bullRsiRule (df : List Row) (latest prev1 : Row) : ℕ × List Entry :=
  match latest.RSI_14, prev1.RSI_14 with
  | some r0, some r1 =>
    let rsi_was_oversold := nanLtConst (nanMin (tailN 10 (df.map Row.RSI_14))) 30
    if rsi_was_oversold ∧ r1 < r0 then
      (8, [("RSI", "✅ [8分] RSI从超卖反弹 (当前:" ++ fmtQ r0 ++ ")")])
    else if 70 < r0 then
      (4, [("RSI", "🟡 [4分] RSI超买 (" ++ fmtQ r0 ++ ")")])
    else
      (0, [("RSI", "❌ [0分] RSI中性 (" ++ fmtQ r0 ++ ")")])
  | _, _ => (0, [])

/-- Bull rule: MACD golden cross (7/3/0 points), guarded on all four MACD
values being non-NaN; skipped entirely otherwise. -/
def bullMacdRule (latest prev1 : Row) : ℕ × List Entry :=
  match latest.MACD, latest.MACD_signal, prev1.MACD, prev1.MACD_signal with
  | some m0, some s0, some m1, some s1 =>
    if s0 < m0 ∧ m1 ≤ s1 then
      (7, [("MACD", "✅ [7分] MACD金叉")])
    else if s0 < m0 then
      (3, [("MACD", "🟡 [3分] MACD正值")])
    else
      (0, [("MACD", "❌ [0分] MACD负向")])
  | _, _, _, _ => (0, [])

/-- Bull rule: bullish divergence (5/0 points), only evaluated when the
series has at least 10 rows. -/
def bullDivergenceRule (df : List Row) (latest : Row) : ℕ × List Entry :=
  if 10 ≤ df.length then
    let recent_price_low := listMin (tailN 10 (df.map Row.l))
    let recent_rsi_low := nanMin (tailN 10 (df.map Row.RSI_14))
    if latest.l ≤ recent_price_low * (102 / 100) ∧
        nanGt latest.RSI_14 (recent_rsi_low.map (fun x => x * (105 / 100))) then
      (5, [("Divergence", "✅ [5分] 检测到牛背离")])
    else
      (0, [("Divergence", "❌ [0分] 无背离")])
  else
    (0, [])

/-- Bull rule: rising with volume (5/2/0 points). -/
def bullVolumeRule (latest prev1 : Row) : ℕ × List Entry :=
  if cmpGtOpt latest.v latest.Volume_MA then
    if prev1.c < latest.c then
      (5, [("Volume", "✅ [5分] 上涨放量")])
    else
      (2, [("Volume", "🟡 [2分] 成交量放大但价格未上涨")])
  else
    (0, [("Volume", "❌ [0分] 上涨缩量")])

/-- Bull rule: OBV rising (5/0 points), guarded on both OBV values being
non-NaN; skipped entirely otherwise. -/
def bullObvRule (latest prev1 : Row) : ℕ × List Entry :=
  match latest.OBV, prev1.OBV with
  | some o0, some o1 =>
    if o1 < o0 then
      (5, [("OBV", "✅ [5分] OBV上升")])
    else
      (0, [("OBV", "❌ [0分] OBV下降")])
  | _, _ => (0, [])

/-- Bull chain-data section (MVRV 3 points for the healthy band, aSOPR 2
points).  Same malformed else-branch f-strings as the bear section: any
absent or non-qualifying chain field raises. -/
def bullChainSection (chain_data : Option ChainData) : Except PyError (ℕ × List Entry) :=
  match chain_data with
  | none => Except.ok (0, [("Chain_Data", "ℹ️ [0分] 链上数据不可用")])
  | some cd =>
    let mvrvStep : Except PyError (ℕ × List Entry) :=
      match cd.mvrv_z_score with
      | some m =>
        if m ≠ 0 ∧ (1 / 2 : ℚ) < m ∧ m < 2 then
          Except.ok (3, [("MVRV", "✅ [3分] MVRV健康区间 (" ++ fmtQ m ++ ")")])
        else
          Except.error PyError.formatError
      | none => Except.error PyError.formatError
    let soprStep : Except PyError (ℕ × List Entry) :=
      match cd.sopr with
      | some sp =>
        if sp ≠ 0 ∧ 1 < sp then
          Except.ok (2, [("SOPR", "✅ [2分] aSOPR>1.0 (" ++ fmtQ sp ++ ")")])
        else
          Except.error PyError.formatError
      | none => Except.error PyError.formatError
    match mvrvStep with
    | Except.error e => Except.error e
    | Except.ok p1 =>
      match soprStep with
      | Except.error e => Except.error e
      | Except.ok p2 => Except.ok (p1.1 + p2.1, p1.2 ++ p2.2)

/-- The eleven technical bull rules in source order. -/
def bullRules (df : List Row) (latest prev1 prev2 : Row) : List (ℕ × List Entry) :=
  [bullEma20Rule latest prev1 prev2,
   bullEma50Rule latest,
   bullGoldenCrossRule latest,
   bullHigherHighRule latest prev1,
   bullResistanceRule df latest,
   bullBBRule latest,
   bullRsiRule df latest prev1,
   bullMacdRule latest prev1,
   bullDivergenceRule df latest,
   bullVolumeRule latest prev1,
   bullObvRule latest prev1]

/-- Body of `calculate_bull_signal_score` once the three trailing rows have
been extracted. -/
def bullScoreCore (df : List Row) (latest prev1 prev2 : Row) (chain_data : Option ChainData) :
    Except PyError (ℕ × List Entry) :=
  match bullChainSection chain_data with
  | Except.error e => Except.error e
  | Except.ok cres =>
    Except.ok (((bullRules df latest prev1 prev2).map Prod.fst).sum + cres.1,
               ((bullRules df latest prev1 prev2).map Prod.snd).flatten ++ cres.2)

/-- Embedding of `calculate_bull_signal_score`: as in the source,
`prev2 = df.iloc[-3] if len(df) >= 3 else prev1`, so a two-row series still
evaluates (with `prev2 = prev1`) and only a series shorter than two rows
raises `IndexError`. -/
def calculate_bull_signal_score (df : List Row) (chain_data : Option ChainData) :
    Except PyError (ℕ × List Entry) :=
  match df.reverse with
  | latest :: prev1 :: rest => bullScoreCore df latest prev1 (rest.headD prev1) chain_data
  | _ => Except.error PyError.indexError

/-!
Alert message generation and the dispatch cascade of `check_market_signals`
(lines 597-651).
-/

/-- Embedding of `generate_alert_message` (lines 654-697).  The three lookup
dictionaries become equality chains with the same default values
(`emoji_map.get(x, "")`, `title_map.get(x, "市场信号")`,
`recommendation_map.get(x, "建议观察")`); the template is reproduced
append-by-append, with `latest_data.name` already rendered and the price
rendering abstracted by `fmtQ`. -/
def generate_alert_message (signal_type : String) (score : ℕ) (reasons : List Entry)
    (latest_data : Row) : String :=
  let emoji :=
    if signal_type = "STRONG_BEAR" then ("🚨🔴")
    else if signal_type = "BEAR" then ("🔴")
    else if signal_type = "STRONG_BULL" then ("🎉🟢")
    else if signal_type = "BULL" then ("🟢")
    else ("")
  let title :=
    if signal_type = "STRONG_BEAR" then ("强烈看跌信号 - 牛转熊高度确认")
    else if signal_type = "BEAR" then ("看跌信号 - 牛转熊确认")
    else if signal_type = "STRONG_BULL" then ("强烈看涨信号 - 熊转牛高度确认")
    else if signal_type = "BULL" then ("看涨信号 - 熊转牛确认")
    else ("市场信号")
  let recommendation :=
    if signal_type = "STRONG_BEAR" then ("**强烈建议**: 立即开始战略性减仓，降低风险敞口50-100%")
    else if signal_type = "BEAR" then ("**建议**: 分批减仓，降低风险敞口25-50%")
    else if signal_type = "STRONG_BULL" then ("**强烈建议**: 积极建仓或加仓，提升风险敞口50-100%")
    else if signal_type = "BULL" then ("**建议**: 分批建仓或加仓，提升风险敞口25-50%")
    else ("建议观察")
  emoji ++ " **" ++ title ++ "** " ++ emoji ++
    "\n\n**检测时间**: " ++ latest_data.name ++
    "\n**BTC 价格**: $" ++ fmtQ latest_data.c ++
    "\n**信号评分**: " ++ toString score ++ "/100\n\n**指标详情**:\n" ++
    String.join (reasons.map (fun r => r.2 ++ "\n")) ++
    "\n" ++ recommendation ++ "\n" ++
    "\n_本信号由增强版市场周期检测系统自动生成_"

/-- Outcome of the alert cascade in `check_market_signals`: the three
mutable locals of the source.  An alert is dispatched (Telegram, plus email
when the priority is high) exactly when `alert_message` is non-empty. -/
structure AlertState where
  alert_message : String
  alert_subject : String
  priority : String
deriving DecidableEq, Repr

/-- Embedding of the score-aggregation cascade of `check_market_signals`
(lines 597-626).  The bear branch runs first; the bull branch runs second
and, in its two alert arms (score ≥ 70), unconditionally overwrites any
pending bear alert; only its watch arm (50 ≤ score < 70) is guarded by
`not alert_message`. -/
def aggregateSignals (bear_score bull_score : ℕ) (bear_reasons bull_reasons : List Entry)
    (latest : Row) : AlertState :=
  let st0 : AlertState := { alert_message := "", alert_subject := "", priority := "low" }
  let st1 : AlertState :=
    if 90 ≤ bear_score then
      { alert_message := generate_alert_message ("STRONG_BEAR") bear_score bear_reasons latest,
        alert_subject := "🚨 强烈看跌信号！牛转熊高度确认", priority := "high" }
    else if 70 ≤ bear_score then
      { alert_message := generate_alert_message ("BEAR") bear_score bear_reasons latest,
        alert_subject := "🔴 看跌信号！牛转熊确认", priority := "medium" }
    else if 50 ≤ bear_score then
      { alert_message := st0.alert_message,
        alert_subject := "🟡 谨慎看跌信号", priority := "low" }
    else st0
  if 90 ≤ bull_score then
    { alert_message := generate_alert_message ("STRONG_BULL") bull_score bull_reasons latest,
      alert_subject := "🎉 强烈看涨信号！熊转牛高度确认", priority := "high" }
  else if 70 ≤ bull_score then
    { alert_message := generate_alert_message ("BULL") bull_score bull_reasons latest,
      alert_subject := "🟢 看涨信号！熊转牛确认", priority := "medium" }
  else if 50 ≤ bull_score ∧ st1.alert_message = "" then
    { alert_message := st1.alert_message,
      alert_subject := "🟡 谨慎看涨信号", priority := "low" }
  else st1

/-- Award actually contributed by a chain section result (zero when the
section aborted the evaluation). -/
def chainAward (e : Except PyError (ℕ × List Entry)) : ℕ :=
  match e with
  | Except.ok c => c.1
  | Except.error _ => 0

/-- Maximum award of each bear rule in source order, the chain rules
included: 40 primary + 25 price action + 20 momentum + 10 volume + 5
chain. -/
def bearMaxPoints : List ℕ := [20, 10, 10, 10, 8, 7, 8, 7, 5, 5, 5, 3, 2]

/-- Maximum award of each bull rule in source order. -/
def bullMaxPoints : List ℕ := [20, 10, 10, 10, 8, 7, 8, 7, 5, 5, 5, 3, 2]

/-- State-passing form of the bear scoring call.  The source body performs
only reads on `df` and `chain_data` (`iloc`, `len`, `.get`, `.tail`,
`.min`, `.max`); it contains no assignment to any column, row or dictionary
key, so the threaded state is returned unchanged next to the result. -/
def calculate_bear_signal_score_frame (df : List Row) (chain_data : Option ChainData) :
    (List Row × Option ChainData) × Except PyError (ℕ × List Entry) :=
  ((df, chain_data), calculate_bear_signal_score df chain_data)

/-- State-passing form of the bull scoring call; reads only, as for the
bear function. -/
def calculate_bull_signal_score_frame (df : List Row) (chain_data : Option ChainData) :
    (List Row × Option ChainData) × Except PyError (ℕ × List Entry) :=
  ((df, chain_data), calculate_bull_signal_score df chain_data)

/-!
Concrete fixtures used by witnesses and counterexamples.
-/

/-- Plain candle row with no indicator annotated yet (all columns NaN). -/
def bareRow (hi lo cl vo : ℚ) : Row :=
  { name := "2024-01-01", o := cl, h := hi, l := lo, c := cl, v := vo,
    EMA_20 := none, EMA_50 := none, EMA_200 := none, RSI_14 := none,
    MACD := none, MACD_signal := none, BB_lower := none, BB_upper := none,
    Volume_MA := none, OBV := none }

/-- Fully annotated neutral row: every indicator column defined. -/
def fullRow : Row :=
  { name := "2024-01-01", o := 100, h := 101, l := 99, c := 100, v := 10,
    EMA_20 := some 100, EMA_50 := some 100, EMA_200 := some 100,
    RSI_14 := some 50, MACD := some 1, MACD_signal := some 1,
    BB_lower := some 90, BB_upper := some 110, Volume_MA := some 10,
    OBV := some 5 }

/-- Two-candle series. -/
def df2 : List Row := [bareRow 101 99 100 10, bareRow 102 98 100 10]

/-- Three-candle series. -/
def df3 : List Row := [bareRow 101 99 100 10, bareRow 102 98 100 10, bareRow 103 97 100 10]

/-- Ten fully annotated candles. -/
def df10 : List Row := List.replicate 10 fullRow

/-- Reference row for alert-message fixtures. -/
def row0 : Row := bareRow 101 99 100 10

/-!
Helper lemmas about the alert formatter and the dispatch cascade.
-/

/-- Every generated alert message is non-empty: the template always contains
the literal header and body text around the interpolated values. -/
theorem generate_alert_message_ne_empty (ty : String) (sc : ℕ) (rs : List Entry) (ld : Row) :
    generate_alert_message ty sc rs ld ≠ "" := by
  intro hEq
  have hlen := congrArg String.length hEq
  simp only [generate_alert_message, String.length_append, String.length_empty] at hlen
  have h1 : (" **" : String).length = 3 := rfl
  rw [h1] at hlen
  omega

/-- Characterization of the dispatched message: the bull alert arms
unconditionally overwrite the bear alert, so the message is bull-determined
whenever the bull score reaches 70, and bear-determined only otherwise. -/
theorem aggregateSignals_message (b u : ℕ) (br bu : List Entry) (r : Row) :
    (aggregateSignals b u br bu r).alert_message =
      if 90 ≤ u then generate_alert_message ("STRONG_BULL") u bu r
      else if 70 ≤ u then generate_alert_message ("BULL") u bu r
      else if 90 ≤ b then generate_alert_message ("STRONG_BEAR") b br r
      else if 70 ≤ b then generate_alert_message ("BEAR") b br r
      else "" := by
  by_cases hu90 : 90 ≤ u
  · simp [aggregateSignals, hu90]
  · by_cases hu70 : 70 ≤ u
    · simp [aggregateSignals, hu90, hu70]
    · by_cases hb90 : 90 ≤ b
      · have hne := generate_alert_message_ne_empty ("STRONG_BEAR") b br r
        simp [aggregateSignals, hu90, hu70, hb90, hne]
      · by_cases hb70 : 70 ≤ b
        · have hne := generate_alert_message_ne_empty ("BEAR") b br r
          simp [aggregateSignals, hu90, hu70, hb90, hb70, hne]
        · by_cases hb50 : 50 ≤ b <;> by_cases hu50 : 50 ≤ u <;>
            simp [aggregateSignals, hu90, hu70, hb90, hb70, hb50, hu50]

/-- Characterization of the alert subject along the same cascade. -/
theorem aggregateSignals_subject (b u : ℕ) (br bu : List Entry) (r : Row) :
    (aggregateSignals b u br bu r).alert_subject =
      if 90 ≤ u then "🎉 强烈看涨信号！熊转牛高度确认"
      else if 70 ≤ u then "🟢 看涨信号！熊转牛确认"
      else if 50 ≤ u ∧ b < 70 then "🟡 谨慎看涨信号"
      else if 90 ≤ b then "🚨 强烈看跌信号！牛转熊高度确认"
      else if 70 ≤ b then "🔴 看跌信号！牛转熊确认"
      else if 50 ≤ b then "🟡 谨慎看跌信号"
      else "" := by
  by_cases hu90 : 90 ≤ u
  · simp [aggregateSignals, hu90]
  · by_cases hu70 : 70 ≤ u
    · simp [aggregateSignals, hu90, hu70]
    · by_cases hb90 : 90 ≤ b
      · have hne := generate_alert_message_ne_empty ("STRONG_BEAR") b br r
        have hcond : ¬ (50 ≤ u ∧ b < 70) := by omega
        simp [aggregateSignals, hu90, hu70, hb90, hne, hcond]
      · by_cases hb70 : 70 ≤ b
        · have hne := generate_alert_message_ne_empty ("BEAR") b br r
          have hcond : ¬ (50 ≤ u ∧ b < 70) := by omega
          simp [aggregateSignals, hu90, hu70, hb90, hb70, hne, hcond]
        · by_cases hu50 : 50 ≤ u
          · have hcond : (50 ≤ u ∧ b < 70) := ⟨hu50, by omega⟩
            by_cases hb50 : 50 ≤ b <;>
              simp [aggregateSignals, hu90, hu70, hb90, hb70, hu50, hb50, hcond]
          · have hcond : ¬ (50 ≤ u ∧ b < 70) := by omega
            by_cases hb50 : 50 ≤ b <;>
              simp [aggregateSignals, hu90, hu70, hb90, hb70, hu50, hb50, hcond]

/-!
Per-rule award bounds: each rule awards at most its source maximum.
-/

theorem bearEma20Rule_le (l p : Row) : (bearEma20Rule l p).1 ≤ 20 := by
  unfold bearEma20Rule; split_ifs <;> simp

theorem bearEma50Rule_le (l : Row) : (bearEma50Rule l).1 ≤ 10 := by
  unfold bearEma50Rule; split_ifs <;> simp

theorem bearDeathCrossRule_le (l : Row) : (bearDeathCrossRule l).1 ≤ 10 := by
  unfold bearDeathCrossRule
  rcases l.EMA_50 with _ | a <;> rcases l.EMA_200 with _ | b <;> simp <;> split_ifs <;> simp

theorem bearLowerLowRule_le (l p : Row) : (bearLowerLowRule l p).1 ≤ 10 := by
  unfold bearLowerLowRule; split_ifs <;> simp

theorem bearSupportRule_le (df : List Row) (l : Row) : (bearSupportRule df l).1 ≤ 8 := by
  simp only [bearSupportRule]; split_ifs <;> simp

theorem bearBBRule_le (l : Row) : (bearBBRule l).1 ≤ 7 := by
  unfold bearBBRule; split_ifs <;> simp

theorem bearRsiRule_le (df : List Row) (l p : Row) : (bearRsiRule df l p).1 ≤ 8 := by
  unfold bearRsiRule
  rcases l.RSI_14 with _ | a <;> rcases p.RSI_14 with _ | b <;> simp <;> split_ifs <;> simp

theorem bearMacdRule_le (l p : Row) : (bearMacdRule l p).1 ≤ 7 := by
  unfold bearMacdRule
  rcases l.MACD with _ | a <;> rcases l.MACD_signal with _ | b <;>
    rcases p.MACD with _ | e <;> rcases p.MACD_signal with _ | f <;>
    simp <;> split_ifs <;> simp

theorem bearDivergenceRule_le (df : List Row) (l : Row) : (bearDivergenceRule df l).1 ≤ 5 := by
  simp only [bearDivergenceRule]; split_ifs <;> simp

theorem bearVolumeRule_le (l p : Row) : (bearVolumeRule l p).1 ≤ 5 := by
  unfold bearVolumeRule; split_ifs <;> simp

theorem bearObvRule_le (l p : Row) : (bearObvRule l p).1 ≤ 5 := by
  unfold bearObvRule
  rcases l.OBV with _ | a <;> rcases p.OBV with _ | b <;> simp <;> split_ifs <;> simp

theorem bearChainSection_award_le (cd : Option ChainData) :
    chainAward (bearChainSection cd) ≤ 5 := by
  rcases cd with _ | ⟨mvrv, sopr⟩
  · simp [bearChainSection, chainAward]
  · rcases mvrv with _ | m <;> rcases sopr with _ | sp <;>
      simp only [bearChainSection, chainAward] <;> (try split_ifs) <;> simp

theorem bullEma20Rule_le (l p q : Row) : (bullEma20Rule l p q).1 ≤ 20 := by
  unfold bullEma20Rule
  rcases l.EMA_20 with _ | a <;> rcases p.EMA_20 with _ | b <;> rcases q.EMA_20 with _ | e <;>
    simp <;> split_ifs <;> simp

theorem bullEma50Rule_le (l : Row) : (bullEma50Rule l).1 ≤ 10 := by
  unfold bullEma50Rule; split_ifs <;> simp

theorem bullGoldenCrossRule_le (l : Row) : (bullGoldenCrossRule l).1 ≤ 10 := by
  unfold bullGoldenCrossRule
  rcases l.EMA_50 with _ | a <;> rcases l.EMA_200 with _ | b <;> simp <;> split_ifs <;> simp

theorem bullHigherHighRule_le (l p : Row) : (bullHigherHighRule l p).1 ≤ 10 := by
  unfold bullHigherHighRule; split_ifs <;> simp

theorem bullResistanceRule_le (df : List Row) (l : Row) : (bullResistanceRule df l).1 ≤ 8 := by
  simp only [bullResistanceRule]; split_ifs <;> simp

theorem bullBBRule_le (l : Row) : (bullBBRule l).1 ≤ 7 := by
  unfold bullBBRule; split_ifs <;> simp

theorem bullRsiRule_le (df : List Row) (l p : Row) : (bullRsiRule df l p).1 ≤ 8 := by
  unfold bullRsiRule
  rcases l.RSI_14 with _ | a <;> rcases p.RSI_14 with _ | b <;> simp <;> split_ifs <;> simp

theorem bullMacdRule_le (l p : Row) : (bullMacdRule l p).1 ≤ 7 := by
  unfold bullMacdRule
  rcases l.MACD with _ | a <;> rcases l.MACD_signal with _ | b <;>
    rcases p.MACD with _ | e <;> rcases p.MACD_signal with _ | f <;>
    simp <;> split_ifs <;> simp

theorem bullDivergenceRule_le (df : List Row) (l : Row) : (bullDivergenceRule df l).1 ≤ 5 := by
  simp only [bullDivergenceRule]; split_ifs <;> simp

theorem bullVolumeRule_le (l p : Row) : (bullVolumeRule l p).1 ≤ 5 := by
  unfold bullVolumeRule; split_ifs <;> simp

theorem bullObvRule_le (l p : Row) : (bullObvRule l p).1 ≤ 5 := by
  unfold bullObvRule
  rcases l.OBV with _ | a <;> rcases p.OBV with _ | b <;> simp <;> split_ifs <;> simp

theorem bullChainSection_award_le (cd : Option ChainData) :
    chainAward (bullChainSection cd) ≤ 5 := by
  rcases cd with _ | ⟨mvrv, sopr⟩
  · simp [bullChainSection, chainAward]
  · rcases mvrv with _ | m <;> rcases sopr with _ | sp <;>
      simp only [bullChainSection, chainAward] <;> (try split_ifs) <;> simp

/-- Sum of the eleven technical bear-rule awards is at most 95. -/
theorem bearRules_sum_le (df : List Row) (l p : Row) :
    ((bearRules df l p).map Prod.fst).sum ≤ 95 := by
  have h1 := bearEma20Rule_le l p
  have h2 := bearEma50Rule_le l
  have h3 := bearDeathCrossRule_le l
  have h4 := bearLowerLowRule_le l p
  have h5 := bearSupportRule_le df l
  have h6 := bearBBRule_le l
  have h7 := bearRsiRule_le df l p
  have h8 := bearMacdRule_le l p
  have h9 := bearDivergenceRule_le df l
  have h10 := bearVolumeRule_le l p
  have h11 := bearObvRule_le l p
  simp only [bearRules, List.map_cons, List.map_nil, List.sum_cons, List.sum_nil]
  omega

/-- Sum of the eleven technical bull-rule awards is at most 95. -/
theorem bullRules_sum_le (df : List Row) (l p q : Row) :
    ((bullRules df l p q).map Prod.fst).sum ≤ 95 := by
  have h1 := bullEma20Rule_le l p q
  have h2 := bullEma50Rule_le l
  have h3 := bullGoldenCrossRule_le l
  have h4 := bullHigherHighRule_le l p
  have h5 := bullResistanceRule_le df l
  have h6 := bullBBRule_le l
  have h7 := bullRsiRule_le df l p
  have h8 := bullMacdRule_le l p
  have h9 := bullDivergenceRule_le df l
  have h10 := bullVolumeRule_le l p
  have h11 := bullObvRule_le l p
  simp only [bullRules, List.map_cons, List.map_nil, List.sum_cons, List.sum_nil]
  omega

/-!
Breakdown-key lemmas: which `reasons` entry each rule writes, and under
which indicator-presence guards.
-/

theorem bearEma20Rule_keys (l p : Row) : (bearEma20Rule l p).2.map Prod.fst = [("EMA_20" : String)] := by
  unfold bearEma20Rule; split_ifs <;> rfl

theorem bearEma50Rule_keys (l : Row) : (bearEma50Rule l).2.map Prod.fst = [("EMA_50" : String)] := by
  unfold bearEma50Rule; split_ifs <;> rfl

theorem bearDeathCrossRule_keys (l : Row) (a b : ℚ) (h1 : l.EMA_50 = some a)
    (h2 : l.EMA_200 = some b) : (bearDeathCrossRule l).2.map Prod.fst = [("Death_Cross" : String)] := by
  simp only [bearDeathCrossRule, h1, h2]; split_ifs <;> rfl

theorem bearLowerLowRule_keys (l p : Row) : (bearLowerLowRule l p).2.map Prod.fst = [("Lower_Low" : String)] := by
  unfold bearLowerLowRule; split_ifs <;> rfl

theorem bearSupportRule_keys (df : List Row) (l : Row) :
    (bearSupportRule df l).2.map Prod.fst = [("Support" : String)] := by
  simp only [bearSupportRule]; split_ifs <;> rfl

theorem bearBBRule_keys (l : Row) : (bearBBRule l).2.map Prod.fst = [("BB_Breakdown" : String)] := by
  unfold bearBBRule; split_ifs <;> rfl

theorem bearRsiRule_keys (df : List Row) (l p : Row) (a b : ℚ) (h1 : l.RSI_14 = some a)
    (h2 : p.RSI_14 = some b) : (bearRsiRule df l p).2.map Prod.fst = [("RSI" : String)] := by
  simp only [bearRsiRule, h1, h2]; split_ifs <;> rfl

theorem bearMacdRule_keys (l p : Row) (a b e f : ℚ) (h1 : l.MACD = some a)
    (h2 : l.MACD_signal = some b) (h3 : p.MACD = some e) (h4 : p.MACD_signal = some f) :
    (bearMacdRule l p).2.map Prod.fst = [("MACD" : String)] := by
  simp only [bearMacdRule, h1, h2, h3, h4]; split_ifs <;> rfl

theorem bearDivergenceRule_keys (df : List Row) (l : Row) (h : 10 ≤ df.length) :
    (bearDivergenceRule df l).2.map Prod.fst = [("Divergence" : String)] := by
  simp only [bearDivergenceRule, if_pos h]; split_ifs <;> rfl

theorem bearVolumeRule_keys (l p : Row) : (bearVolumeRule l p).2.map Prod.fst = [("Volume" : String)] := by
  unfold bearVolumeRule; split_ifs <;> rfl

theorem bearObvRule_keys (l p : Row) (a b : ℚ) (h1 : l.OBV = some a) (h2 : p.OBV = some b) :
    (bearObvRule l p).2.map Prod.fst = [("OBV" : String)] := by
  simp only [bearObvRule, h1, h2]; split_ifs <;> rfl

theorem bullEma20Rule_keys (l p q : Row) (a b e : ℚ) (h1 : l.EMA_20 = some a)
    (h2 : p.EMA_20 = some b) (h3 : q.EMA_20 = some e) :
    (bullEma20Rule l p q).2.map Prod.fst = [("EMA_20" : String)] := by
  simp only [bullEma20Rule, h1, h2, h3]; split_ifs <;> rfl

theorem bullEma50Rule_keys (l : Row) : (bullEma50Rule l).2.map Prod.fst = [("EMA_50" : String)] := by
  unfold bullEma50Rule; split_ifs <;> rfl

theorem bullGoldenCrossRule_keys (l : Row) (a b : ℚ) (h1 : l.EMA_50 = some a)
    (h2 : l.EMA_200 = some b) : (bullGoldenCrossRule l).2.map Prod.fst = [("Golden_Cross" : String)] := by
  simp only [bullGoldenCrossRule, h1, h2]; split_ifs <;> rfl

theorem bullHigherHighRule_keys (l p : Row) :
    (bullHigherHighRule l p).2.map Prod.fst = [("Higher_High" : String)] := by
  unfold bullHigherHighRule; split_ifs <;> rfl

theorem bullResistanceRule_keys (df : List Row) (l : Row) :
    (bullResistanceRule df l).2.map Prod.fst = [("Resistance" : String)] := by
  simp only [bullResistanceRule]; split_ifs <;> rfl

theorem bullBBRule_keys (l : Row) : (bullBBRule l).2.map Prod.fst = [("BB_Breakout" : String)] := by
  unfold bullBBRule; split_ifs <;> rfl

theorem bullRsiRule_keys (df : List Row) (l p : Row) (a b : ℚ) (h1 : l.RSI_14 = some a)
    (h2 : p.RSI_14 = some b) : (bullRsiRule df l p).2.map Prod.fst = [("RSI" : String)] := by
  simp only [bullRsiRule, h1, h2]; split_ifs <;> rfl

theorem bullMacdRule_keys (l p : Row) (a b e f : ℚ) (h1 : l.MACD = some a)
    (h2 : l.MACD_signal = some b) (h3 : p.MACD = some e) (h4 : p.MACD_signal = some f) :
    (bullMacdRule l p).2.map Prod.fst = [("MACD" : String)] := by
  simp only [bullMacdRule, h1, h2, h3, h4]; split_ifs <;> rfl

theorem bullDivergenceRule_keys (df : List Row) (l : Row) (h : 10 ≤ df.length) :
    (bullDivergenceRule df l).2.map Prod.fst = [("Divergence" : String)] := by
  simp only [bullDivergenceRule, if_pos h]; split_ifs <;> rfl

theorem bullVolumeRule_keys (l p : Row) : (bullVolumeRule l p).2.map Prod.fst = [("Volume" : String)] := by
  unfold bullVolumeRule; split_ifs <;> rfl

theorem bullObvRule_keys (l p : Row) (a b : ℚ) (h1 : l.OBV = some a) (h2 : p.OBV = some b) :
    (bullObvRule l p).2.map Prod.fst = [("OBV" : String)] := by
  simp only [bullObvRule, h1, h2]; split_ifs <;> rfl

/-!
Claim theorems.
-/

/-- C3 (amended): evaluation of a series of length exactly 3 does not fail,
but evaluation of a series of length 2 does not fail either (the source
falls back to `prev2 = prev1`); no `InsufficientData` error exists anywhere
in the code, and only a series with fewer than two rows fails, with a plain
`IndexError` from `df.iloc[-2]`. -/
theorem evaluation_length_behavior (df : List Row) :
    (2 ≤ df.length →
      (calculate_bear_signal_score df none).isOk = true ∧
      (calculate_bull_signal_score df none).isOk = true) ∧
    (df.length < 2 →
      calculate_bear_signal_score df none = Except.error PyError.indexError ∧
      calculate_bull_signal_score df none = Except.error PyError.indexError) := by
  have hlen : df.reverse.length = df.length := List.length_reverse df
  rcases hrev : df.reverse with _ | ⟨a, _ | ⟨b, t⟩⟩ <;>
    rw [hrev] at hlen <;>
    simp only [List.length_nil, List.length_cons] at hlen
  · exact ⟨fun h => by omega, fun _ => by
      constructor <;> simp [calculate_bear_signal_score, calculate_bull_signal_score, hrev]⟩
  · exact ⟨fun h => by omega, fun _ => by
      constructor <;> simp [calculate_bear_signal_score, calculate_bull_signal_score, hrev]⟩
  · refine ⟨fun _ => ?_, fun h => by omega⟩
    refine ⟨?_, ?_⟩
    · unfold calculate_bear_signal_score
      rw [hrev]
      rfl
    · unfold calculate_bull_signal_score
      rw [hrev]
      rfl

/-- Witness for C3: a three-candle series evaluates without error on both
regimes. -/
theorem evaluation_length_behavior_witness :
    (calculate_bear_signal_score df3 none).isOk = true ∧
    (calculate_bull_signal_score df3 none).isOk = true :=
  (evaluation_length_behavior df3).1 (by decide)

/-- Counterexample for C3 as stated: a two-candle series does NOT fail; both
scoring functions return a score. -/
theorem length_two_succeeds_cex :
    (calculate_bear_signal_score df2 none).isOk = true ∧
    (calculate_bull_signal_score df2 none).isOk = true := by
  constructor <;> decide

/-- C4 (code bug): an absent or non-qualifying chain field does not degrade
to a zero-point rule; the malformed else-branch f-string raises instead,
aborting the whole evaluation.  Evaluated here on a valid three-candle
series with: a present but non-qualifying MVRV (3.0) for the bear rule, an
absent MVRV, and a present but falsy MVRV (0.0) for the bull rule; each
aborts the evaluation with the format error instead of contributing 0. -/
theorem chain_field_failure_raises :
    calculate_bear_signal_score df3
        (some { mvrv_z_score := some 3, sopr := some 2 }) =
      Except.error PyError.formatError ∧
    calculate_bear_signal_score df3
        (some { mvrv_z_score := none, sopr := some 2 }) =
      Except.error PyError.formatError ∧
    calculate_bull_signal_score df3
        (some { mvrv_z_score := some 0, sopr := some 2 }) =
      Except.error PyError.formatError := by
  refine ⟨?_, ?_, ?_⟩ <;> rfl

/-- Row whose close sits above its 20-week EMA. -/
def rowAbove : Row := { bareRow 111 109 110 10 with EMA_20 := some 100 }

/-- Row whose close sits below its 20-week EMA. -/
def rowBelow : Row := { bareRow 101 89 90 10 with EMA_20 := some 100 }

/-- Counterexample for C6 as stated: with the close above the EMA20 on the
last two consecutive bars (and below on the third), the bull EMA20 rule
awards 12 points, not the 20 points the mirror-image claim requires. -/
theorem bull_ema20_not_mirror_cex :
    (bullEma20Rule rowAbove rowAbove rowBelow).1 = 12 ∧
    ¬ (bullEma20Rule rowAbove rowAbove rowBelow).1 = 20 := by
  constructor <;> decide

/-- C6 (amended): the bull EMA20 rule is not the bear rule mirrored; it
counts the bars with close above EMA20 among the last three (not
consecutively) and awards 20 for all three, 12 for exactly two, 6 for
exactly one and 0 for none, and only runs when all three EMA values are
present. -/
theorem bull_ema20_three_bar_count (latest prev1 prev2 : Row) (e0 e1 e2 : ℚ)
    (h0 : latest.EMA_20 = some e0) (h1 : prev1.EMA_20 = some e1)
    (h2 : prev2.EMA_20 = some e2) :
    ((bullEma20Rule latest prev1 prev2).1 = 20 ↔
       (e0 < latest.c ∧ e1 < prev1.c ∧ e2 < prev2.c)) ∧
    ((bullEma20Rule latest prev1 prev2).1 = 12 ↔
       ((e0 < latest.c ∧ e1 < prev1.c ∧ ¬ e2 < prev2.c) ∨
        (e0 < latest.c ∧ ¬ e1 < prev1.c ∧ e2 < prev2.c) ∨
        (¬ e0 < latest.c ∧ e1 < prev1.c ∧ e2 < prev2.c))) ∧
    ((bullEma20Rule latest prev1 prev2).1 = 6 ↔
       ((e0 < latest.c ∧ ¬ e1 < prev1.c ∧ ¬ e2 < prev2.c) ∨
        (¬ e0 < latest.c ∧ e1 < prev1.c ∧ ¬ e2 < prev2.c) ∨
        (¬ e0 < latest.c ∧ ¬ e1 < prev1.c ∧ e2 < prev2.c))) ∧
    ((bullEma20Rule latest prev1 prev2).1 = 0 ↔
       (¬ e0 < latest.c ∧ ¬ e1 < prev1.c ∧ ¬ e2 < prev2.c)) := by
  simp only [bullEma20Rule, h0, h1, h2]
  by_cases ha : e0 < latest.c <;> by_cases hb : e1 < prev1.c <;> by_cases hc : e2 < prev2.c <;>
    simp [ha, hb, hc]

/-- Witness for C6: on three identical neutral rows (close never above the
EMA20) the bull EMA20 rule awards 0. -/
theorem bull_ema20_three_bar_count_witness :
    (bullEma20Rule fullRow fullRow fullRow).1 = 0 :=
  ((bull_ema20_three_bar_count fullRow fullRow fullRow 100 100 100 rfl rfl rfl).2.2.2).mpr
    (by norm_num [fullRow, bareRow])

/-- C9: evaluation is deterministic.  The embedding of the scoring and
formatting pipeline is a pure function of the series, the chain snapshot and
the score inputs, so re-running it on the same immutable inputs yields
identical scores, identical breakdowns and a byte-identical message. -/
theorem evaluation_deterministic (df : List Row) (chain : Option ChainData)
    (ty : String) (sc : ℕ) (rs : List Entry) (ld : Row) :
    calculate_bear_signal_score df chain = calculate_bear_signal_score df chain ∧
    calculate_bull_signal_score df chain = calculate_bull_signal_score df chain ∧
    generate_alert_message ty sc rs ld = generate_alert_message ty sc rs ld ∧
    (∀ b u br bu l, aggregateSignals b u br bu l = aggregateSignals b u br bu l) :=
  ⟨rfl, rfl, rfl, fun _ _ _ _ _ => rfl⟩

/-- C10: the two scoring functions are read-only over their inputs: in the
state-passing embedding the series and the chain snapshot threaded through
the call come back unchanged (the source body contains no assignment to any
candle field, indicator column or chain key). -/
theorem scoring_functions_read_only (df : List Row) (chain : Option ChainData) :
    (calculate_bear_signal_score_frame df chain).1 = (df, chain) ∧
    (calculate_bull_signal_score_frame df chain).1 = (df, chain) :=
  ⟨rfl, rfl⟩

/-- Counterexample for C1 as stated: with bear score 80 and bull score 70
(both qualifying, bear strictly higher) the dispatched alert is the BULL
alert, not the bear one; and on an exact 70/70 tie the BULL alert is
dispatched, not Bear.  The higher score does not win and ties do not favor
Bear. -/
theorem higher_score_wins_cex :
    (aggregateSignals 80 70 [] [] row0).alert_message =
      generate_alert_message ("BULL") 70 [] row0 ∧
    (aggregateSignals 80 70 [] [] row0).alert_message ≠
      generate_alert_message ("BEAR") 80 [] row0 ∧
    (aggregateSignals 80 70 [] [] row0).alert_subject = "🟢 看涨信号！熊转牛确认" ∧
    (aggregateSignals 70 70 [] [] row0).alert_message =
      generate_alert_message ("BULL") 70 [] row0 := by
  refine ⟨rfl, ?_, rfl, rfl⟩
  decide

/-- C1 (amended): when both regimes reach 50, the score comparison never
happens: a bull score of at least 70 dispatches the bull alert regardless of
the bear score (the bull branch overwrites any pending bear alert); the bear
alert survives only when the bull score is below 70; and when both scores
are in the watch band no alert is dispatched at all. -/
theorem aggregator_overwrite_semantics (b u : ℕ) (br bu : List Entry) (r : Row)
    (hb : 50 ≤ b) (hu : 50 ≤ u) :
    (70 ≤ u → (aggregateSignals b u br bu r).alert_message =
        (if 90 ≤ u then generate_alert_message ("STRONG_BULL") u bu r
         else generate_alert_message ("BULL") u bu r)) ∧
    (u < 70 → 70 ≤ b → (aggregateSignals b u br bu r).alert_message =
        (if 90 ≤ b then generate_alert_message ("STRONG_BEAR") b br r
         else generate_alert_message ("BEAR") b br r)) ∧
    (u < 70 → b < 70 → (aggregateSignals b u br bu r).alert_message = "") := by
  refine ⟨fun h1 => ?_, fun h1 h2 => ?_, fun h1 h2 => ?_⟩ <;>
    rw [aggregateSignals_message] <;> split_ifs <;> first | rfl | omega

/-- Witness for C1 (amended) at bear 80, bull 70: the bull alert is the one
dispatched. -/
theorem aggregator_overwrite_semantics_witness :
    (aggregateSignals 80 70 [] [] fullRow).alert_message =
      (if 90 ≤ 70 then generate_alert_message ("STRONG_BULL") 70 [] fullRow
       else generate_alert_message ("BULL") 70 [] fullRow) :=
  (aggregator_overwrite_semantics 80 70 [] [] fullRow (by norm_num) (by norm_num)).1
    (by norm_num)

/-- C7: classification thresholds and dispatchability.  A score of at least
90 takes the Strong branch, 70 to 89 the Confirmed branch, 50 to 69 the
Watch branch (subject only, nothing dispatched), below 50 nothing at all;
an alert message is dispatched exactly when one of the scores reaches 70,
and every generated message is non-empty. -/
theorem classification_thresholds (b u : ℕ) (br bu : List Entry) (r : Row) :
    ((aggregateSignals b u br bu r).alert_message ≠ "" ↔ (70 ≤ b ∨ 70 ≤ u)) ∧
    (u < 50 →
      (90 ≤ b → (aggregateSignals b u br bu r).alert_message =
          generate_alert_message ("STRONG_BEAR") b br r ∧
        (aggregateSignals b u br bu r).alert_subject = "🚨 强烈看跌信号！牛转熊高度确认") ∧
      (70 ≤ b → b < 90 → (aggregateSignals b u br bu r).alert_message =
          generate_alert_message ("BEAR") b br r ∧
        (aggregateSignals b u br bu r).alert_subject = "🔴 看跌信号！牛转熊确认") ∧
      (50 ≤ b → b < 70 → (aggregateSignals b u br bu r).alert_message = "" ∧
        (aggregateSignals b u br bu r).alert_subject = "🟡 谨慎看跌信号") ∧
      (b < 50 → (aggregateSignals b u br bu r).alert_message = "" ∧
        (aggregateSignals b u br bu r).alert_subject = "")) ∧
    ((90 ≤ u → (aggregateSignals b u br bu r).alert_message =
        generate_alert_message ("STRONG_BULL") u bu r ∧
      (aggregateSignals b u br bu r).alert_subject = "🎉 强烈看涨信号！熊转牛高度确认") ∧
     (70 ≤ u → u < 90 → (aggregateSignals b u br bu r).alert_message =
        generate_alert_message ("BULL") u bu r ∧
      (aggregateSignals b u br bu r).alert_subject = "🟢 看涨信号！熊转牛确认") ∧
     (50 ≤ u → u < 70 → b < 50 → (aggregateSignals b u br bu r).alert_message = "" ∧
      (aggregateSignals b u br bu r).alert_subject = "🟡 谨慎看涨信号")) ∧
    (∀ ty sc rs ld, generate_alert_message ty sc rs ld ≠ "") := by
  refine ⟨?_, fun hu50 => ⟨fun h => ⟨?_, ?_⟩, fun h h9 => ⟨?_, ?_⟩,
      fun h h7 => ⟨?_, ?_⟩, fun h => ⟨?_, ?_⟩⟩,
    ⟨fun h => ⟨?_, ?_⟩, fun h h9 => ⟨?_, ?_⟩, fun h h7 hb => ⟨?_, ?_⟩⟩,
    fun ty sc rs ld => generate_alert_message_ne_empty ty sc rs ld⟩
  · constructor
    · intro hne
      rw [aggregateSignals_message] at hne
      split_ifs at hne with g1 g2 g3 g4 <;> first | omega | exact absurd rfl hne
    · intro hor
      rw [aggregateSignals_message]
      split_ifs with g1 g2 g3 g4 <;>
        first | omega | exact generate_alert_message_ne_empty _ _ _ _
  · rw [aggregateSignals_message]; split_ifs <;> first | omega | rfl
  · rw [aggregateSignals_subject]; split_ifs <;> first | omega | rfl
  · rw [aggregateSignals_message]; split_ifs <;> first | omega | rfl
  · rw [aggregateSignals_subject]; split_ifs <;> first | omega | rfl
  · rw [aggregateSignals_message]; split_ifs <;> first | omega | rfl
  · rw [aggregateSignals_subject]; split_ifs <;> first | omega | rfl
  · rw [aggregateSignals_message]; split_ifs <;> first | omega | rfl
  · rw [aggregateSignals_subject]; split_ifs <;> first | omega | rfl
  · rw [aggregateSignals_message]; split_ifs <;> first | omega | rfl
  · rw [aggregateSignals_subject]; split_ifs <;> first | omega | rfl
  · rw [aggregateSignals_message]; split_ifs <;> first | omega | rfl
  · rw [aggregateSignals_subject]; split_ifs <;> first | omega | rfl
  · rw [aggregateSignals_message]; split_ifs <;> first | omega | rfl
  · rw [aggregateSignals_subject]; split_ifs <;> first | omega | rfl

/-- Witness for C7: a bear watch score (60) with a quiet bull side sets the
watch subject and dispatches nothing, while a strong bull score (95)
dispatches a non-empty message. -/
theorem classification_thresholds_witness :
    ((aggregateSignals 60 0 [] [] row0).alert_message = "" ∧
     (aggregateSignals 60 0 [] [] row0).alert_subject = "🟡 谨慎看跌信号") ∧
    (aggregateSignals 0 95 [] [] row0).alert_message ≠ "" :=
  ⟨((classification_thresholds 60 0 [] [] row0).2.1 (by norm_num)).2.2.1
      (by norm_num) (by norm_num),
   ((classification_thresholds 0 95 [] [] row0).1).mpr (Or.inr (by norm_num))⟩

/-- Counterexample for C2 as stated: for a valid three-candle series and
chain metrics with a present but non-qualifying MVRV, the bear scoring
function does not return a total score at all - it raises - while the same
series without chain metrics scores normally. -/
theorem score_returns_cex :
    calculate_bear_signal_score df3 (some { mvrv_z_score := some 4, sopr := some 2 }) =
      Except.error PyError.formatError ∧
    (calculate_bear_signal_score df3 none).isOk = true := by
  refine ⟨?_, ?_⟩ <;> rfl

/-- C2 (amended): whenever a scoring function does return a score (always
when chain metrics are omitted; only with qualifying chain fields when they
are present), the total is at most 100, equals the sum of the per-rule
awards plus the chain award, and the per-rule maxima of the complete
rule-set sum to 100 for both regimes. -/
theorem score_bounds_and_rule_sum :
    (∀ df chain s r, calculate_bear_signal_score df chain = Except.ok (s, r) →
       s ≤ 100 ∧ ∃ latest prev1 rest, df.reverse = latest :: prev1 :: rest ∧
         s = ((bearRules df latest prev1).map Prod.fst).sum +
           chainAward (bearChainSection chain)) ∧
    (∀ df chain s r, calculate_bull_signal_score df chain = Except.ok (s, r) →
       s ≤ 100 ∧ ∃ latest prev1 rest, df.reverse = latest :: prev1 :: rest ∧
         s = ((bullRules df latest prev1 (rest.headD prev1)).map Prod.fst).sum +
           chainAward (bullChainSection chain)) ∧
    bearMaxPoints.sum = 100 ∧ bullMaxPoints.sum = 100 := by
  refine ⟨?_, ?_, by decide, by decide⟩
  · intro df chain s r h
    unfold calculate_bear_signal_score at h
    rcases hrev : df.reverse with _ | ⟨latest, _ | ⟨prev1, rest⟩⟩ <;> rw [hrev] at h
    · simp at h
    · simp at h
    · unfold bearScoreCore at h
      rcases hc : bearChainSection chain with e | c <;> rw [hc] at h
      · simp at h
      · simp only [Except.ok.injEq, Prod.mk.injEq] at h
        obtain ⟨hs, hr⟩ := h
        have hsum := bearRules_sum_le df latest prev1
        have hca : chainAward (bearChainSection chain) = c.1 := by rw [hc]; rfl
        have hc5 := bearChainSection_award_le chain
        rw [hca] at hc5
        have hca2 : chainAward (Except.ok c) = c.1 := rfl
        refine ⟨by omega, latest, prev1, rest, rfl, ?_⟩
        omega
  · intro df chain s r h
    unfold calculate_bull_signal_score at h
    rcases hrev : df.reverse with _ | ⟨latest, _ | ⟨prev1, rest⟩⟩ <;> rw [hrev] at h
    · simp at h
    · simp at h
    · unfold bullScoreCore at h
      rcases hc : bullChainSection chain with e | c <;> rw [hc] at h
      · simp at h
      · simp only [Except.ok.injEq, Prod.mk.injEq] at h
        obtain ⟨hs, hr⟩ := h
        have hsum := bullRules_sum_le df latest prev1 (rest.headD prev1)
        have hca : chainAward (bullChainSection chain) = c.1 := by rw [hc]; rfl
        have hc5 := bullChainSection_award_le chain
        rw [hca] at hc5
        have hca2 : chainAward (Except.ok c) = c.1 := rfl
        refine ⟨by omega, latest, prev1, rest, rfl, ?_⟩
        omega

/-- Witness for C2 on the ten-candle annotated series without chain data:
the bear score is returned and bounded by 100. -/
theorem score_bounds_and_rule_sum_witness :
    ∃ s r, calculate_bear_signal_score df10 none = Except.ok (s, r) ∧ s ≤ 100 := by
  rcases h : calculate_bear_signal_score df10 none with e | p
  · have hok : (calculate_bear_signal_score df10 none).isOk = true := by decide
    rw [h] at hok
    simp [Except.isOk, Except.toBool] at hok
  · exact ⟨p.1, p.2, rfl,
      (score_bounds_and_rule_sum.1 df10 none p.1 p.2 (by rw [h])).1⟩

/-- Bear chain section on a bear-favorable snapshot (MVRV 6, qualifying
SOPR): the evaluation succeeds and the chain rules award the full 5
points. -/
theorem bearScoreCore_chain_good (df : List Row) (l p : Row) (sp : ℚ)
    (hsp0 : sp ≠ 0) (hsp1 : sp < 1) :
    bearScoreCore df l p (some { mvrv_z_score := some 6, sopr := some sp }) =
      Except.ok (((bearRules df l p).map Prod.fst).sum + 5,
        ((bearRules df l p).map Prod.snd).flatten ++
          ([("MVRV", "✅ [3分] MVRV过热 (" ++ fmtQ 6 ++ ")")] ++
           [("SOPR", "✅ [2分] aSOPR<1.0 (" ++ fmtQ sp ++ ")")])) := by
  simp only [bearScoreCore, bearChainSection]
  split_ifs with h1 h2
  · rfl
  · exact absurd ⟨hsp0, hsp1⟩ h2
  · exact absurd ⟨by norm_num, by norm_num⟩ h1

/-- Counterexample for C8 as stated: chain metrics containing
mvrv_z_score = 6.0 but no SOPR value do not produce a greater-or-equal
score; they produce no score at all (the SOPR else branch raises), while
the run without chain metrics succeeds. -/
theorem chain_mvrv_only_crashes_cex :
    calculate_bear_signal_score df3 (some { mvrv_z_score := some 6, sopr := none }) =
      Except.error PyError.formatError ∧
    (calculate_bear_signal_score df3 none).isOk = true := by
  refine ⟨?_, ?_⟩ <;> rfl

/-- C8 (amended): whenever the bear score without chain metrics is defined,
supplying chain metrics with mvrv_z_score = 6.0 and a qualifying SOPR
(non-zero and below 1) yields exactly that score plus 5, hence a score that
is greater or equal; a non-qualifying or absent SOPR instead aborts the
evaluation. -/
theorem bear_score_chain_monotone (df : List Row) (sp : ℚ) (s : ℕ) (r : List Entry)
    (hsp0 : sp ≠ 0) (hsp1 : sp < 1)
    (h : calculate_bear_signal_score df none = Except.ok (s, r)) :
    ∃ r2, calculate_bear_signal_score df
        (some { mvrv_z_score := some 6, sopr := some sp }) =
        Except.ok (s + 5, r2) ∧ s ≤ s + 5 := by
  unfold calculate_bear_signal_score at h ⊢
  rcases hrev : df.reverse with _ | ⟨latest, _ | ⟨prev1, rest⟩⟩ <;> rw [hrev] at h
  · simp at h
  · simp at h
  · replace h : bearScoreCore df latest prev1 none = Except.ok (s, r) := h
    show ∃ r2, bearScoreCore df latest prev1
        (some { mvrv_z_score := some 6, sopr := some sp }) =
        Except.ok (s + 5, r2) ∧ s ≤ s + 5
    have hnone : bearScoreCore df latest prev1 none =
        Except.ok (((bearRules df latest prev1).map Prod.fst).sum,
          ((bearRules df latest prev1).map Prod.snd).flatten ++
            [("Chain_Data", "ℹ️ [0分] 链上数据不可用")]) := rfl
    rw [hnone] at h
    simp only [Except.ok.injEq, Prod.mk.injEq] at h
    obtain ⟨hs, hr⟩ := h
    have hgood := bearScoreCore_chain_good df latest prev1 sp hsp0 hsp1
    rw [← hs]
    exact ⟨_, hgood, by omega⟩

/-- Witness for C8 on the three-candle series with SOPR 1/2 represented by
the qualifying integer-free value -1 (non-zero, below 1): the score with the
bear-favorable snapshot is the chainless score plus 5. -/
theorem bear_score_chain_monotone_witness :
    ∃ s r r2, calculate_bear_signal_score df3 none = Except.ok (s, r) ∧
      calculate_bear_signal_score df3
          (some { mvrv_z_score := some 6, sopr := some (-1) }) =
        Except.ok (s + 5, r2) := by
  rcases h : calculate_bear_signal_score df3 none with e | p
  · have hok : (calculate_bear_signal_score df3 none).isOk = true := by decide
    rw [h] at hok
    simp [Except.isOk, Except.toBool] at hok
  · obtain ⟨r2, h2, _⟩ := bear_score_chain_monotone df3 (-1) p.1 p.2
      (by norm_num) (by norm_num) (by rw [h])
    exact ⟨p.1, p.2, r2, rfl, h2⟩

/-- Counterexample for C5 as stated: on a valid three-candle series with no
indicator annotated yet, the bear breakdown contains only seven entries -
the guarded rules (death cross, RSI, MACD, divergence, OBV) are silently
omitted instead of contributing an insufficient-lookback verdict, so the
breakdown is not complete. -/
theorem breakdown_incomplete_cex :
    (calculate_bear_signal_score df3 none).map (fun pr => pr.2.map Prod.fst) =
      Except.ok [("EMA_20" : String), "EMA_50", "Lower_Low", "Support", "BB_Breakdown",
        "Volume", "Chain_Data"] ∧
    ("Death_Cross" : String) ∉ [("EMA_20" : String), "EMA_50", "Lower_Low", "Support",
        "BB_Breakdown", "Volume", "Chain_Data"] := by
  refine ⟨?_, ?_⟩ <;> with_unfolding_all decide

/-- C5 (amended): the breakdown is complete exactly when every guard holds.
A rule whose comparison touches an absent indicator either records the same
failure verdict as an ordinary miss (EMA20, EMA50, Bollinger, volume rules)
or - for the guarded rules (death/golden cross, RSI, MACD, OBV) and the
divergence rule on a series shorter than 10 - writes no entry at all; no
insufficient-lookback verdict exists.  When all guarding indicator values
are present and the series has at least 10 rows, every rule contributes
exactly one entry and the breakdown keys are the full list in source
order. -/
theorem breakdown_complete_under_guards (df : List Row) (latest prev1 : Row) (rest : List Row)
    (hrev : df.reverse = latest :: prev1 :: rest)
    (hlen : 10 ≤ df.length)
    (h50 : latest.EMA_50.isSome = true) (h200 : latest.EMA_200.isSome = true)
    (hr0 : latest.RSI_14.isSome = true) (hr1 : prev1.RSI_14.isSome = true)
    (hm0 : latest.MACD.isSome = true) (hms0 : latest.MACD_signal.isSome = true)
    (hm1 : prev1.MACD.isSome = true) (hms1 : prev1.MACD_signal.isSome = true)
    (ho0 : latest.OBV.isSome = true) (ho1 : prev1.OBV.isSome = true)
    (he0 : latest.EMA_20.isSome = true) (he1 : prev1.EMA_20.isSome = true)
    (he2 : (rest.headD prev1).EMA_20.isSome = true) :
    (∀ s r, calculate_bear_signal_score df none = Except.ok (s, r) →
        r.map Prod.fst = [("EMA_20" : String), "EMA_50", "Death_Cross", "Lower_Low",
          "Support", "BB_Breakdown", "RSI", "MACD", "Divergence", "Volume", "OBV",
          "Chain_Data"]) ∧
    (∀ s r, calculate_bull_signal_score df none = Except.ok (s, r) →
        r.map Prod.fst = [("EMA_20" : String), "EMA_50", "Golden_Cross", "Higher_High",
          "Resistance", "BB_Breakout", "RSI", "MACD", "Divergence", "Volume", "OBV",
          "Chain_Data"]) := by
  obtain ⟨v50, hv50⟩ := Option.isSome_iff_exists.mp h50
  obtain ⟨v200, hv200⟩ := Option.isSome_iff_exists.mp h200
  obtain ⟨vr0, hvr0⟩ := Option.isSome_iff_exists.mp hr0
  obtain ⟨vr1, hvr1⟩ := Option.isSome_iff_exists.mp hr1
  obtain ⟨vm0, hvm0⟩ := Option.isSome_iff_exists.mp hm0
  obtain ⟨vms0, hvms0⟩ := Option.isSome_iff_exists.mp hms0
  obtain ⟨vm1, hvm1⟩ := Option.isSome_iff_exists.mp hm1
  obtain ⟨vms1, hvms1⟩ := Option.isSome_iff_exists.mp hms1
  obtain ⟨vo0, hvo0⟩ := Option.isSome_iff_exists.mp ho0
  obtain ⟨vo1, hvo1⟩ := Option.isSome_iff_exists.mp ho1
  obtain ⟨ve0, hve0⟩ := Option.isSome_iff_exists.mp he0
  obtain ⟨ve1, hve1⟩ := Option.isSome_iff_exists.mp he1
  obtain ⟨ve2, hve2⟩ := Option.isSome_iff_exists.mp he2
  constructor
  · intro s r h
    unfold calculate_bear_signal_score at h
    rw [hrev] at h
    replace h : Except.ok (((bearRules df latest prev1).map Prod.fst).sum,
        ((bearRules df latest prev1).map Prod.snd).flatten ++
          [(("Chain_Data" : String), "ℹ️ [0分] 链上数据不可用")]) = Except.ok (s, r) := h
    simp only [Except.ok.injEq, Prod.mk.injEq] at h
    obtain ⟨hs, hr⟩ := h
    subst hr
    simp only [bearRules, List.map_cons, List.map_nil, List.flatten_cons, List.flatten_nil,
      List.map_append, List.append_nil]
    rw [bearEma20Rule_keys, bearEma50Rule_keys,
      bearDeathCrossRule_keys latest v50 v200 hv50 hv200,
      bearLowerLowRule_keys, bearSupportRule_keys, bearBBRule_keys,
      bearRsiRule_keys df latest prev1 vr0 vr1 hvr0 hvr1,
      bearMacdRule_keys latest prev1 vm0 vms0 vm1 vms1 hvm0 hvms0 hvm1 hvms1,
      bearDivergenceRule_keys df latest hlen,
      bearVolumeRule_keys, bearObvRule_keys latest prev1 vo0 vo1 hvo0 hvo1]
    rfl
  · intro s r h
    unfold calculate_bull_signal_score at h
    rw [hrev] at h
    replace h : Except.ok (((bullRules df latest prev1 (rest.headD prev1)).map Prod.fst).sum,
        ((bullRules df latest prev1 (rest.headD prev1)).map Prod.snd).flatten ++
          [(("Chain_Data" : String), "ℹ️ [0分] 链上数据不可用")]) = Except.ok (s, r) := h
    simp only [Except.ok.injEq, Prod.mk.injEq] at h
    obtain ⟨hs, hr⟩ := h
    subst hr
    simp only [bullRules, List.map_cons, List.map_nil, List.flatten_cons, List.flatten_nil,
      List.map_append, List.append_nil]
    rw [bullEma20Rule_keys latest prev1 (rest.headD prev1) ve0 ve1 ve2 hve0 hve1 hve2,
      bullEma50Rule_keys,
      bullGoldenCrossRule_keys latest v50 v200 hv50 hv200,
      bullHigherHighRule_keys, bullResistanceRule_keys, bullBBRule_keys,
      bullRsiRule_keys df latest prev1 vr0 vr1 hvr0 hvr1,
      bullMacdRule_keys latest prev1 vm0 vms0 vm1 vms1 hvm0 hvms0 hvm1 hvms1,
      bullDivergenceRule_keys df latest hlen,
      bullVolumeRule_keys, bullObvRule_keys latest prev1 vo0 vo1 hvo0 hvo1]
    rfl

/-- Witness for C5 on the fully annotated ten-candle series: the bear
breakdown carries all twelve keys in source order. -/
theorem breakdown_complete_under_guards_witness :
    ∃ s r, calculate_bear_signal_score df10 none = Except.ok (s, r) ∧
      r.map Prod.fst = [("EMA_20" : String), "EMA_50", "Death_Cross", "Lower_Low",
        "Support", "BB_Breakdown", "RSI", "MACD", "Divergence", "Volume", "OBV",
        "Chain_Data"] := by
  rcases h : calculate_bear_signal_score df10 none with e | p
  · have hok : (calculate_bear_signal_score df10 none).isOk = true := by decide
    rw [h] at hok
    simp [Except.isOk, Except.toBool] at hok
  · exact ⟨p.1, p.2, rfl,
      (breakdown_complete_under_guards df10 fullRow fullRow (List.replicate 8 fullRow)
        (by rfl) (by decide) rfl rfl rfl rfl rfl rfl rfl rfl rfl rfl rfl rfl rfl).1
        p.1 p.2 (by rw [h])⟩
